import Mathlib

/-!
# SenaNetworkMonitorV0 — verification of the probe-and-hysteresis engine

Shallow embedding of the alerting core of the repository:

* `src/monitor.py` — `NetworkMonitor.check_device` (consecutive-failure
  hysteresis and alert-edge computation), `check_tcp_port`, `check_dns`,
  the SSL classification of `check_website`;
* `src/alerter.py` — `Alerter.should_alert`, `Alerter._mark_alert_sent`,
  `Alerter.trigger_alert`, `Alerter.send_email`, `Alerter.send_telegram`;
* `src/database.py` — `get_last_alert_time`, the failure-count helpers and
  `is_device_in_maintenance` (modelled as a boolean environment field);
* `src/config.py` — the constants the above read.

Machine integers are modelled as `Int`/`Nat`; wall-clock timestamps are
`Int` seconds; Python dictionaries of settings are association lists of
strings; the process-local alert-lock dictionary is a partial map from
`(device_id, event_type)` keys to timestamps.  Network I/O is replaced by
explicit environment oracles.  A Python function that can raise an
uncaught exception is embedded as `Except String _`.
-/

/-- Device status, `status ∈ {unknown, up, slow, down}` (`src/monitor.py`,
`src/database.py`). -/
inductive Status
  | up
  | slow
  | down
  | unknown
deriving DecidableEq, Repr

/- Constants from `src/config.py` that the embedded code reads. -/
namespace Config

/-- Constant from `config.py` line 38. -/
def SLOW_RESPONSE_THRESHOLD : Int := 500

/-- Constant from `config.py` line 41: days before expiry at which the probe classifies
the certificate as `warning`. -/
def SSL_WARNING_DAYS : Int := 30

/-- Constant from `config.py` line 57: consecutive failures required before `down`. -/
def FAILURE_THRESHOLD : Nat := 3

/-- Constant from `config.py` line 72: the `check_device` SSL-alert threshold. -/
def SSL_EXPIRY_ALERT_DAYS : Int := 7

end Config

/-- Python `str.strip()`: drop leading and trailing whitespace. -/
def pyStrip (s : String) : String :=
  ⟨((s.data.dropWhile Char.isWhitespace).reverse.dropWhile Char.isWhitespace).reverse⟩

/-- Decimal digit run to a number; `none` when empty or non-digit. -/
def digitsToNat? (l : List Char) : Option Nat :=
  if l ≠ [] ∧ l.all Char.isDigit then
    some (l.foldl (fun a c => a * 10 + (c.toNat - 48)) 0)
  else none

/-- Python `int(s)` on a string: strip surrounding whitespace, optional
sign, decimal digits; anything else raises `ValueError` (`none` here).
This models the subset of `int()` inputs the repository can meet
(underscored literals are not modelled). -/
def pyStrToInt (s : String) : Option Int :=
  match (pyStrip s).data with
  | [] => none
  | c :: rest =>
    if c = '-' then (digitsToNat? rest).map (fun n => -(n : Int))
    else if c = '+' then (digitsToNat? rest).map (fun n => (n : Int))
    else (digitsToNat? (c :: rest)).map (fun n => (n : Int))

/-- Helper for `pySplitComma`: accumulate the current field in reverse. -/
def splitCommaAux : List Char → List Char → List String
  | [], cur => [⟨cur.reverse⟩]
  | c :: rest, cur =>
    if c = ',' then ⟨cur.reverse⟩ :: splitCommaAux rest []
    else splitCommaAux rest (c :: cur)

/-- Python `s.split(',')`: on the empty string this yields one empty
field, as in Python. -/
def pySplitComma (s : String) : List String := splitCommaAux s.data []

/-- Python `str.lower()` (ASCII range, which covers the stored flags). -/
def pyLower (s : String) : String := ⟨s.data.map Char.toLower⟩

/-- Python `dict.get(key)` on the settings dictionary built by
`Alerter._get_settings` (`src/alerter.py` lines 24-38). -/
def getSetting (settings : List (String × String)) (key : String) : Option String :=
  (settings.find? (fun p => p.1 == key)).map (fun p => p.2)

/-- Python `dict.get(key, default)` on the settings dictionary. -/
def getSettingD (settings : List (String × String)) (key dflt : String) : String :=
  (getSetting settings key).getD dflt

/-- Hysteresis resolver: the consecutive-failure-threshold block of
`NetworkMonitor.check_device` (`src/monitor.py` lines 547-573) as the pure
function `(raw, failure_count_before, previous_status, threshold) ↦
(final_status, failure_count_after)`.  `previous_status` is the stored
status read from the device row; the failure counter lives in the store
(`get_failure_count` / `increment_failure_count` / `reset_failure_count`,
`src/database.py` lines 872-902) and is threaded explicitly. -/
def resolveStatus (raw : Status) (failure_count_before : Nat)
    (previous_status : Status) (threshold : Nat) : Status × Nat :=
  if raw = .down then
    let failure_count := failure_count_before + 1
    if threshold ≤ failure_count then
      (.down, failure_count)
    else if previous_status = .up ∨ previous_status = .slow then
      (previous_status, failure_count)
    else
      (.unknown, failure_count)
  else
    (raw, 0)

/-- SSL classification assigned by `NetworkMonitor.check_website`
(`src/monitor.py` lines 352-361) from `days_until_expiry` and the
configured warning window. -/
def ssl_classify (days_until_expiry : Option Int) (warning_days : Int) : String :=
  match days_until_expiry with
  | some d => if d ≤ 0 then "expired" else if d ≤ warning_days then "warning" else "ok"
  | none => "unknown"

/-- The alert-trigger block of `NetworkMonitor.check_device`
(`src/monitor.py` lines 595-622): which event kinds are passed to
`Alerter.trigger_alert` on one check, in source order.  `down` fires on a
down-edge, `recovery` on the source's recovery condition, `ssl_expiry`
whenever the probe reported a days-left value at most
`Config.SSL_EXPIRY_ALERT_DAYS`. -/
def alertTriggers (previous_status final_status : Status)
    (previous_failure_count threshold : Nat) (ssl_days_left : Option Int) :
    List String :=
  (if final_status = .down ∧ previous_status ≠ .down then ["down"] else []) ++
  (if (previous_status = .down ∧ (final_status = .up ∨ final_status = .slow)) ∨
      (threshold ≤ previous_failure_count ∧ (final_status = .up ∨ final_status = .slow))
   then ["recovery"] else []) ++
  (match ssl_days_left with
   | some d => if d ≤ Config.SSL_EXPIRY_ALERT_DAYS then ["ssl_expiry"] else []
   | none => [])

/-- First claim-group sanity: statuses are four-valued. -/
theorem status_cases (s : Status) :
    s = .up ∨ s = .slow ∨ s = .down ∨ s = .unknown := by
  cases s <;> simp

/-- One row of the `alert_history` table as written by `Database.log_alert`
(`src/database.py` lines 831-842).  `created_at` is written from
`datetime.now().isoformat()` and is modelled as an integer timestamp. -/
structure AlertRow where
  device_id : Nat
  event_type : String
  channel : String
  status : String
  created_at : Int
deriving DecidableEq, Repr

/-- The process-local `Alerter._recent_alerts` dictionary: a partial map
from `(device_id, event_type)` to the time the lock was last written
(`src/alerter.py` line 21). -/
def LockMap : Type := (Nat × String) → Option Int

/-- Embeds `Database.get_last_alert_time` (`src/database.py` lines 844-855):
latest `created_at` among `alert_history` rows for the key whose persisted
status is exactly the string `sent`. -/
def get_last_alert_time (history : List AlertRow) (device_id : Nat)
    (event_type : String) : Option Int :=
  ((history.filter (fun r =>
      r.device_id == device_id && r.event_type == event_type && r.status == "sent")).map
    (fun r => r.created_at)).foldl
    (fun acc t =>
      match acc with
      | none => some t
      | some m => some (max m t)) none

/-- Environment of one `Alerter` call: the settings snapshot, whether
`Database.is_device_in_maintenance` reports an active window for the
device under consideration, the current wall-clock second, and the
success/failure outcome each channel sender would produce if invoked. -/
structure AlertEnv where
  settings : List (String × String)
  in_maintenance : Bool
  now : Int
  email_success : Bool
  line_success : Bool
  telegram_success : Bool

/-- The `int(self._get_setting('alert_cooldown', 300))` computation of
`should_alert` (`src/alerter.py` line 224): the integer `300` when the
setting is absent, otherwise Python `int()` of the stored string
(`none` = `ValueError`). -/
def cooldown_setting (settings : List (String × String)) : Option Int :=
  match getSetting settings "alert_cooldown" with
  | none => some (300 : Int)
  | some s => pyStrToInt s

/-- Embeds `Alerter.should_alert` (`src/alerter.py` lines 204-234).  The checks
run in source order: maintenance window, then the in-memory 30-second
lock, then the persisted cooldown.  `int(self._get_setting('alert_cooldown', 300))`
raises `ValueError` on a malformed setting string, modelled as
`Except.error`; the absent-setting default is the integer `300`. -/
def should_alert (env : AlertEnv) (recent_alerts : LockMap)
    (history : List AlertRow) (device_id : Nat) (event_type : String) :
    Except String Bool :=
  if env.in_maintenance then .ok false
  else
    let lock_hit : Bool :=
      match recent_alerts (device_id, event_type) with
      | some t => decide (env.now - t < 30)
      | none => false
    if lock_hit then .ok false
    else
      match cooldown_setting env.settings with
      | none => .error "ValueError: invalid literal for int"
      | some cooldown =>
        match get_last_alert_time history device_id event_type with
        | none => .ok true
        | some t => .ok (decide (cooldown ≤ env.now - t))

/-- Embeds `Alerter._mark_alert_sent` (`src/alerter.py` lines 236-246): write the
lock timestamp for the key, then rebuild the dictionary keeping only
entries strictly newer than `now - 10 minutes`. -/
def mark_alert_sent (recent_alerts : LockMap) (now : Int) (device_id : Nat)
    (event_type : String) : LockMap :=
  fun k =>
    let written : Option Int :=
      if k = (device_id, event_type) then some now else recent_alerts k
    match written with
    | some t => if now - 600 < t then some t else none
    | none => none

/-- The per-event-kind enable flags consulted by `Alerter.trigger_alert`
(`src/alerter.py` lines 264-274): an event kind other than the three known
ones is not filtered. -/
def event_type_enabled (settings : List (String × String)) (event_type : String) : Bool :=
  if event_type == "down" then
    pyLower (getSettingD settings "alert_on_down" "true") == "true"
  else if event_type == "recovery" then
    pyLower (getSettingD settings "alert_on_recovery" "true") == "true"
  else if event_type == "ssl_expiry" then
    pyLower (getSettingD settings "alert_on_ssl_expiry" "true") == "true"
  else
    true

/-- Embeds `Alerter.is_enabled` (`src/alerter.py` lines 40-42). -/
def is_enabled (settings : List (String × String)) (channel : String) : Bool :=
  pyLower (getSettingD settings (channel ++ "_enabled") "false") == "true"

/-- The channel fan-out of `Alerter.trigger_alert` (`src/alerter.py` lines
289-336): invoke every individually enabled channel in source order
(email, line, telegram), logging one `alert_history` row per channel with
persisted status `sent` or `failed`.  Returns the appended history and the
list of channels invoked. -/
def dispatch_channels (env : AlertEnv) (history : List AlertRow)
    (device_id : Nat) (event_type : String) : List AlertRow × List String :=
  let step := fun (acc : List AlertRow × List String) (ch : String) (ok : Bool) =>
    if is_enabled env.settings ch then
      (acc.1 ++ [⟨device_id, event_type, ch, if ok then "sent" else "failed", env.now⟩],
       acc.2 ++ [ch])
    else acc
  let a1 := step (history, []) "email" env.email_success
  let a2 := step a1 "line" env.line_success
  step a2 "telegram" env.telegram_success

/-- Result of one `Alerter.trigger_alert` call: whether the suppression
pipeline was passed, the lock map and alert history after the call, and
the channels actually invoked. -/
structure TriggerResult where
  proceeded : Bool
  recent_alerts : LockMap
  history : List AlertRow
  sends : List String

/-- Embeds `Alerter.trigger_alert` (`src/alerter.py` lines 248-336): run
`should_alert`; on suppression return with nothing changed; otherwise
write the in-memory lock first, then consult the per-event-kind enable
flag, then fan out to the enabled channels. -/
def trigger_alert (env : AlertEnv) (recent_alerts : LockMap)
    (history : List AlertRow) (device_id : Nat) (event_type : String) :
    Except String TriggerResult :=
  match should_alert env recent_alerts history device_id event_type with
  | .error e => .error e
  | .ok false => .ok ⟨false, recent_alerts, history, []⟩
  | .ok true =>
    let locks := mark_alert_sent recent_alerts env.now device_id event_type
    if event_type_enabled env.settings event_type then
      let fan := dispatch_channels env history device_id event_type
      .ok ⟨true, locks, fan.1, fan.2⟩
    else
      .ok ⟨true, locks, history, []⟩

/-- The per-device mutable state of one check cycle: the persisted failure
counter and stored status of the device under check, the process-local
lock map and the persisted alert history. -/
structure MonState where
  failure_count : Nat
  device_status : Status
  recent_alerts : LockMap
  history : List AlertRow

/-- Probe outcome fields consumed by the hysteresis/alert stage of
`NetworkMonitor.check_device`: the raw status and the
`ssl_days_left` metadata (from `check_website`). -/
structure ProbeResult where
  status : Status
  ssl_days_left : Option Int
deriving DecidableEq, Repr

/-- Dispatch every triggered event kind in order through
`Alerter.trigger_alert`, threading the lock map and history.  Returns the
final state together with the `(event_type, channel)` sends performed. -/
def dispatch_all (env : AlertEnv) (st : MonState) (device_id : Nat) :
    List String → Except String (MonState × List (String × String))
  | [] => .ok (st, [])
  | ev :: rest =>
    match trigger_alert env st.recent_alerts st.history device_id ev with
    | .error e => .error e
    | .ok r =>
      match dispatch_all env
          { st with recent_alerts := r.recent_alerts, history := r.history }
          device_id rest with
      | .error e => .error e
      | .ok (st2, sends) => .ok (st2, r.sends.map (fun c => (ev, c)) ++ sends)

/-- Result of one `NetworkMonitor.check_device` call. -/
structure CheckResult where
  final_status : Status
  state : MonState
  triggered : List String
  sends : List (String × String)

/-- Embeds `NetworkMonitor.check_device` (`src/monitor.py` lines 524-643) from
the probe outcome onwards: read the failure count, resolve the final
status, persist the counter and device status, then fire the alert
triggers through the dispatcher.  `previous_status` is the stored status
of the device row, which in the sequential check cycle equals the
snapshot passed to `check_device`. -/
def check_device (env : AlertEnv) (threshold : Nat) (st : MonState)
    (device_id : Nat) (probe : ProbeResult) : Except String CheckResult :=
  let previous_status := st.device_status
  let previous_failure_count := st.failure_count
  let resolved := resolveStatus probe.status previous_failure_count previous_status threshold
  let final_status := resolved.1
  let triggered := alertTriggers previous_status final_status
      previous_failure_count threshold probe.ssl_days_left
  let st1 : MonState :=
    { st with failure_count := resolved.2, device_status := final_status }
  match dispatch_all env st1 device_id triggered with
  | .error e => .error e
  | .ok (st2, sends) => .ok ⟨final_status, st2, triggered, sends⟩

/-- The transport `Alerter.send_email` opens (`src/alerter.py` lines
86-95): `SMTP_SSL` (implicit TLS) on port 465, plain `SMTP` followed by
`starttls()` on every other port. -/
inductive SmtpConn
  | ssl
  | starttls
deriving DecidableEq, Repr

/-- Outcome of the SMTP session, abstracting the network: success, an
`SMTPAuthenticationError`, another `SMTPException`, or any other
exception (all three are caught at `src/alerter.py` lines 103-108). -/
inductive SmtpOutcome
  | ok
  | authError (m : String)
  | smtpError (m : String)
  | otherError (m : String)
deriving DecidableEq, Repr

/-- Caller-visible result of `Alerter.send_email`, extended with the
transport that was opened (`none` when the function returned before
connecting). -/
structure EmailResult where
  success : Bool
  error : Option String
  connection : Option SmtpConn
deriving DecidableEq, Repr

/-- Environment of one `send_email` call. -/
structure EmailEnv where
  settings : List (String × String)
  outcome : SmtpOutcome

/-- The recipient-list computation of `send_email` and `send_telegram`:
split on commas, strip each entry, drop empties (`src/alerter.py` lines
60 and 155). -/
def splitRecipients (s : String) : List String :=
  ((pySplitComma s).map pyStrip).filter (fun r => r ≠ "")

/-- The `int(settings.get('smtp_port', 587))` computation of `send_email`
(`src/alerter.py` line 53): the integer `587` when the setting is absent,
otherwise Python `int()` of the stored string (`none` = `ValueError`). -/
def smtp_port_setting (settings : List (String × String)) : Option Int :=
  match getSetting settings "smtp_port" with
  | none => some (587 : Int)
  | some s => pyStrToInt s

/-- Embeds `Alerter.send_email` (`src/alerter.py` lines 44-108).
`int(settings.get('smtp_port', 587))` runs before the completeness check
and raises `ValueError` on a malformed port string (`Except.error`).
With the port parsed: incomplete credentials or an empty recipient list
return failure with no connection; otherwise the transport is chosen by
the port value and the session outcome is mapped to the source's three
error categories. -/
def send_email (env : EmailEnv) (recipient : Option String) :
    Except String EmailResult :=
  let settings := env.settings
  let smtp_server := pyStrip (getSettingD settings "smtp_server" "")
  match smtp_port_setting settings with
  | none => .error "ValueError: invalid literal for int"
  | some smtp_port =>
    let smtp_user := pyStrip (getSettingD settings "smtp_user" "")
    let smtp_password := getSettingD settings "smtp_password" ""
    let recipient_str := pyStrip (recipient.getD (getSettingD settings "email_recipient" ""))
    let recipients := splitRecipients recipient_str
    if smtp_server = "" ∨ smtp_user = "" ∨ smtp_password = "" ∨ recipients = [] then
      .ok ⟨false, some "Email settings incomplete", none⟩
    else
      let conn := if smtp_port = 465 then SmtpConn.ssl else SmtpConn.starttls
      match env.outcome with
      | .ok => .ok ⟨true, none, some conn⟩
      | .authError m => .ok ⟨false, some ("SMTP authentication failed: " ++ m), some conn⟩
      | .smtpError m => .ok ⟨false, some ("SMTP error: " ++ m), some conn⟩
      | .otherError m => .ok ⟨false, some m, some conn⟩

/-- Per-recipient outcome of one Telegram Bot API POST (`src/alerter.py`
lines 176-190): HTTP 200 with `ok`, HTTP 401, another API error with a
description, a request timeout, or any other exception. -/
inductive TgOutcome
  | ok
  | unauthorized
  | apiError (desc : String)
  | timeout
  | exn (m : String)
deriving DecidableEq, Repr

/-- Environment of one `send_telegram` call: the settings snapshot and the
outcome each chat id would produce. -/
structure TelegramEnv where
  settings : List (String × String)
  outcome : String → TgOutcome

/-- Caller-visible result of `Alerter.send_telegram`. -/
structure TgResult where
  success : Bool
  error : Option String
  warning : Option String
deriving DecidableEq, Repr

/-- Whether one Telegram POST counted as a success
(`response.status_code == 200 and result.get('ok')`, `src/alerter.py`
line 179). -/
def tg_is_ok : TgOutcome → Bool
  | .ok => true
  | _ => false

/-- The error string `send_telegram` appends for one failing chat id
(`src/alerter.py` lines 181-190); `none` for a successful send. -/
def tg_error_entry (chat_id : String) : TgOutcome → Option String
  | .ok => none
  | .unauthorized => some ("Invalid Token for " ++ chat_id)
  | .apiError desc => some ("Error for " ++ chat_id ++ ": " ++ desc)
  | .timeout => some ("Timeout for " ++ chat_id)
  | .exn m => some ("Error for " ++ chat_id ++ ": " ++ m)

/-- Embeds `Alerter.send_telegram`, reachable code (`src/alerter.py` lines
143-197): missing credentials fail fast; otherwise the message is posted
to each comma-separated chat id independently, each failure adding one
error entry, and the batch result aggregates the per-recipient outcomes.
The `except` clauses at `src/alerter.py` lines 199-202 sit after the
function's returns without an enclosing `try` — a Python `SyntaxError` —
and are not part of any executable path. -/
def send_telegram (env : TelegramEnv) : TgResult :=
  let bot_token := pyStrip (getSettingD env.settings "telegram_bot_token" "")
  let chat_id_str := pyStrip (getSettingD env.settings "telegram_chat_id" "")
  if bot_token = "" ∨ chat_id_str = "" then
    ⟨false, some "Telegram settings incomplete (need Bot Token and Chat ID)", none⟩
  else
    let chat_ids := splitRecipients chat_id_str
    if chat_ids = [] then
      ⟨false, some "No valid Telegram Chat IDs found", none⟩
    else
      let success_count :=
        (chat_ids.filter (fun id => tg_is_ok (env.outcome id))).length
      let errors := chat_ids.filterMap (fun id => tg_error_entry id (env.outcome id))
      if 0 < success_count then
        if 0 < errors.length then
          ⟨true, none,
           some ("Sent to " ++ toString success_count ++ "/" ++
                 toString chat_ids.length ++ ", Errors: " ++
                 String.intercalate "; " errors)⟩
        else ⟨true, none, none⟩
      else
        ⟨false, some ("All attempts failed: " ++ String.intercalate "; " errors), none⟩

/-- The value found under `device.get('tcp_port', 80)`: the stored port
may be an integer or an arbitrary string. -/
inductive PyVal
  | int (n : Int)
  | str (s : String)
deriving DecidableEq, Repr

/-- Python `int(x)` on an already-int or a string value. -/
def pyIntOf : PyVal → Option Int
  | .int n => some n
  | .str s => pyStrToInt s

/-- Behaviour of `sock.connect_ex((ip_address, int(port)))`
(`src/monitor.py` line 75): it can raise `socket.timeout`, raise
`socket.gaierror` for an unresolvable address, or return an errno
(`0` = port open). -/
inductive TcpConnectBehavior
  | timeout
  | gaierror
  | errno (code : Int)
deriving DecidableEq, Repr

/-- Environment of one `check_tcp_port` call. -/
structure TcpEnv where
  connect : TcpConnectBehavior
  elapsed_ms : Int
deriving DecidableEq, Repr

/-- Probe result dictionary of `check_tcp_port`. -/
structure TcpResult where
  status : Status
  response_time : Option Int
deriving DecidableEq, Repr

/-- Embeds `NetworkMonitor.check_tcp_port` (`src/monitor.py` lines 61-102).  The
only handler is `except socket.timeout`; `int(port)` on a non-numeric
value raises `ValueError` and `connect_ex` on an unresolvable address
raises `socket.gaierror`, both escaping the function (the duplicated
`return` block at lines 99-102 is unreachable).  Its sibling probes close
with a catch-all `except Exception` handler instead. -/
def check_tcp_port (env : TcpEnv) (port : PyVal) : Except String TcpResult :=
  match pyIntOf port with
  | none => .error "ValueError: invalid literal for int"
  | some _ =>
    match env.connect with
    | .gaierror => .error "socket.gaierror"
    | .timeout => .ok ⟨.down, none⟩
    | .errno code =>
      if code = 0 then
        .ok ⟨if Config.SLOW_RESPONSE_THRESHOLD < env.elapsed_ms then .slow else .up,
             some env.elapsed_ms⟩
      else
        .ok ⟨.down, none⟩

/-- Behaviour of the `dnspython` query issued by `check_dns`
(`src/monitor.py` lines 104-171): an answer, or one of the exceptions the
source handles, or any other exception. -/
inductive DnsOutcome
  | answer (ip : String)
  | timeout
  | nxdomain
  | noAnswer
  | noNameservers
  | exn (m : String)
deriving DecidableEq, Repr

/-- Environment of one `check_dns` call. -/
structure DnsEnv where
  outcome : DnsOutcome
  elapsed_ms : Int
deriving DecidableEq, Repr

/-- Probe result dictionary of `check_dns`. -/
structure DnsResult where
  status : Status
  response_time : Option Int
  resolved_ip : Option String
deriving DecidableEq, Repr

/-- Embeds `NetworkMonitor.check_dns` (`src/monitor.py` lines 104-171): every
failure mode, including the final catch-all `except Exception`, is
converted locally into a `down` outcome, so the function is total. -/
def check_dns (env : DnsEnv) : DnsResult :=
  match env.outcome with
  | .answer ip =>
    ⟨if Config.SLOW_RESPONSE_THRESHOLD < env.elapsed_ms then .slow else .up,
     some env.elapsed_ms, some ip⟩
  | _ => ⟨.down, none, none⟩

theorem alertTriggers_down_mem (prev final : Status) (c T : Nat) (ssl : Option Int) :
    "down" ∈ alertTriggers prev final c T ssl ↔ (prev ≠ .down ∧ final = .down) := by
  have h1 : ("down" : String) ≠ "recovery" := by decide
  have h2 : ("down" : String) ≠ "ssl_expiry" := by decide
  unfold alertTriggers
  rcases ssl with _ | d <;>
    split_ifs <;>
      simp_all [List.mem_append, List.mem_singleton] <;> tauto

theorem alertTriggers_recovery_mem (prev final : Status) (c T : Nat) (ssl : Option Int) :
    "recovery" ∈ alertTriggers prev final c T ssl ↔
      ((prev = .down ∨ T ≤ c) ∧ (final = .up ∨ final = .slow)) := by
  have h1 : ("recovery" : String) ≠ "down" := by decide
  have h2 : ("recovery" : String) ≠ "ssl_expiry" := by decide
  unfold alertTriggers
  rcases ssl with _ | d <;>
    split_ifs <;>
      simp_all [List.mem_append, List.mem_singleton] <;> tauto

theorem resolveStatus_down_eq (c : Nat) (prev : Status) (T : Nat) :
    resolveStatus .down c prev T =
      ((if T ≤ c + 1 then .down
        else if prev = .up ∨ prev = .slow then prev else .unknown), c + 1) := by
  unfold resolveStatus
  split_ifs <;> simp_all

/-- Claim C1: hysteresis resolution (`src/monitor.py` lines 547-573): on a
raw `down` the failure counter becomes `failure_count_before + 1` and the
final status is `down` exactly when that new count reaches the threshold,
otherwise the previous status when it is `up`/`slow` and `unknown`
otherwise; on a raw `up`/`slow` the counter resets to `0` and the final
status equals the raw status. -/
theorem resolveStatus_spec (raw : Status) (c : Nat) (prev : Status) (T : Nat) :
    (raw = .down →
      (resolveStatus raw c prev T).2 = c + 1 ∧
      ((resolveStatus raw c prev T).1 = .down ↔ T ≤ c + 1) ∧
      (¬ T ≤ c + 1 →
        (resolveStatus raw c prev T).1 =
          if prev = .up ∨ prev = .slow then prev else .unknown)) ∧
    ((raw = .up ∨ raw = .slow) →
      (resolveStatus raw c prev T).2 = 0 ∧ (resolveStatus raw c prev T).1 = raw) := by
  constructor
  · rintro rfl
    rw [resolveStatus_down_eq]
    refine ⟨rfl, ?_, fun h => by simp [if_neg h]⟩
    constructor
    · intro hEq
      by_contra hT
      rw [if_neg hT] at hEq
      revert hEq
      split_ifs with hP
      · rcases hP with h | h <;> subst h <;> intro hEq <;> simp at hEq
      · intro hEq
        simp at hEq
    · intro hT
      simp [hT]
  · rintro (rfl | rfl) <;> simp [resolveStatus]

/-- Witness for `resolveStatus_spec`: one failure below the threshold
keeps a previously-`up` device reported `up` while counting the failure. -/
theorem resolveStatus_spec_witness :
    (resolveStatus .down 1 .up 3).2 = 2 ∧ (resolveStatus .down 1 .up 3).1 = .up := by
  have h := (resolveStatus_spec .down 1 .up 3).1 rfl
  exact ⟨h.1, by simpa using h.2.2 (by decide)⟩

/-- Claim C2: alert edges of `NetworkMonitor.check_device` (`src/monitor.py`
lines 595-614): with the final status produced by the hysteresis
resolver, a `down` alert is triggered iff the previous status was not
`down` and the final status is `down`, and a `recovery` alert is
triggered iff (the previous status was `down` or the failure count before
the check had reached the threshold) and the final status is `up` or
`slow`. -/
theorem check_device_edge_spec (prev : Status) (c T : Nat) (raw : Status)
    (ssl : Option Int) :
    ("down" ∈ alertTriggers prev (resolveStatus raw c prev T).1 c T ssl ↔
      (prev ≠ .down ∧ (resolveStatus raw c prev T).1 = .down)) ∧
    ("recovery" ∈ alertTriggers prev (resolveStatus raw c prev T).1 c T ssl ↔
      ((prev = .down ∨ T ≤ c) ∧
       ((resolveStatus raw c prev T).1 = .up ∨ (resolveStatus raw c prev T).1 = .slow))) :=
  ⟨alertTriggers_down_mem prev (resolveStatus raw c prev T).1 c T ssl,
   alertTriggers_recovery_mem prev (resolveStatus raw c prev T).1 c T ssl⟩

/-- Claim C6, counterexample: a certificate classified `warning` because its
days-left (20) is within the configured warning window
(`Config.SSL_WARNING_DAYS = 30`) does **not** raise an `ssl_expiry`
trigger, because `check_device` compares the days-left against
`Config.SSL_EXPIRY_ALERT_DAYS = 7`, not against the classification. -/
theorem ssl_warning_without_alert :
    ssl_classify (some 20) Config.SSL_WARNING_DAYS = "warning" ∧
    "ssl_expiry" ∉
      alertTriggers .up .up 0 Config.FAILURE_THRESHOLD (some 20) := by
  decide

/-- Claim C6, amended: an `ssl_expiry` alert is triggered on a cycle iff the
probe reported a days-until-expiry value of at most
`Config.SSL_EXPIRY_ALERT_DAYS` (7); it re-fires on every such cycle.
Hence every `expired` certificate (days ≤ 0) triggers, but a
`warning`-classified certificate triggers only when its days-left is
also at most 7. -/
theorem ssl_alert_condition (prev final : Status) (c T : Nat) (ssl : Option Int) :
    "ssl_expiry" ∈ alertTriggers prev final c T ssl ↔
      (∃ d, ssl = some d ∧ d ≤ Config.SSL_EXPIRY_ALERT_DAYS) := by
  have h1 : ("ssl_expiry" : String) ≠ "down" := by decide
  have h2 : ("ssl_expiry" : String) ≠ "recovery" := by decide
  unfold alertTriggers
  rcases ssl with _ | d <;>
    split_ifs <;>
      simp_all [List.mem_append, List.mem_singleton]

/-- Claim C7: SSL classification (`src/monitor.py` lines 352-361): for a
days-until-expiry value `d` and warning window `W`, the classification is
`expired` iff `d ≤ 0`, `warning` iff `0 < d ≤ W`, and `ok` otherwise. -/
theorem ssl_classify_spec (d W : Int) :
    (ssl_classify (some d) W = "expired" ↔ d ≤ 0) ∧
    (ssl_classify (some d) W = "warning" ↔ (0 < d ∧ d ≤ W)) ∧
    (ssl_classify (some d) W = "ok" ↔ (0 < d ∧ W < d)) := by
  have hred : ssl_classify (some d) W =
      if d ≤ 0 then "expired" else if d ≤ W then "warning" else "ok" := rfl
  rw [hred]
  split_ifs with h1 h2
  · exact ⟨iff_of_true rfl h1,
      iff_of_false (by decide) (by omega),
      iff_of_false (by decide) (by omega)⟩
  · exact ⟨iff_of_false (by decide) (by omega),
      iff_of_true rfl ⟨by omega, h2⟩,
      iff_of_false (by decide) (by omega)⟩
  · exact ⟨iff_of_false (by decide) (by omega),
      iff_of_false (by decide) (by omega),
      iff_of_true rfl ⟨by omega, by omega⟩⟩

/-- Claim C4: `NetworkMonitor.check_tcp_port` does NOT convert every
failure into a `down` outcome: its only handler is `except socket.timeout`,
so `int(port)` on a non-numeric port raises `ValueError` and an
unresolvable address raises `socket.gaierror`, both propagating to the
caller; only the timeout and errno paths return the documented `down`
dictionary. -/
theorem check_tcp_port_uncaught :
    check_tcp_port ⟨.errno 0, 5⟩ (.str "80a") =
      .error "ValueError: invalid literal for int" ∧
    check_tcp_port ⟨.gaierror, 5⟩ (.int 80) = .error "socket.gaierror" ∧
    check_tcp_port ⟨.timeout, 5⟩ (.int 80) = .ok ⟨.down, none⟩ ∧
    check_tcp_port ⟨.errno 111, 5⟩ (.int 80) = .ok ⟨.down, none⟩ ∧
    check_tcp_port ⟨.errno 0, 5⟩ (.int 80) = .ok ⟨.up, some 5⟩ :=
  ⟨rfl, rfl, rfl, rfl, rfl⟩

/-- Claim C3: the suppression pipeline of `Alerter.should_alert` with the
`sent`-only cooldown source `Database.get_last_alert_time`: with a
well-formed cooldown setting, an alert passes to the send stage iff the
device is not in maintenance, and no lock for the key is within the
30-second in-memory window, and the last successfully sent alert for the
key is at least the cooldown old; the checks run in that order with the
first match suppressing (maintenance and the lock decide without touching
the cooldown setting), and rows whose persisted status is not `sent` (or
rows for another key) never count toward the cooldown. -/
theorem should_alert_spec (env : AlertEnv) (recent : LockMap)
    (history : List AlertRow) (device_id : Nat) (event_type : String)
    (cooldown : Int)
    (hcd : cooldown_setting env.settings = some cooldown) :
    (should_alert env recent history device_id event_type = .ok true ↔
      (env.in_maintenance = false ∧
       (∀ t, recent (device_id, event_type) = some t → 30 ≤ env.now - t) ∧
       (∀ t, get_last_alert_time history device_id event_type = some t →
          cooldown ≤ env.now - t))) ∧
    (env.in_maintenance = true →
      should_alert env recent history device_id event_type = .ok false) ∧
    (∀ t, recent (device_id, event_type) = some t → env.now - t < 30 →
      should_alert env recent history device_id event_type = .ok false) ∧
    (∀ r : AlertRow,
      (r.device_id ≠ device_id ∨ r.event_type ≠ event_type ∨ r.status ≠ "sent") →
      get_last_alert_time (r :: history) device_id event_type =
        get_last_alert_time history device_id event_type) := by
  have heval : should_alert env recent history device_id event_type =
      if env.in_maintenance then .ok false
      else if (match recent (device_id, event_type) with
               | some t => decide (env.now - t < 30)
               | none => false) = true then .ok false
      else
        match get_last_alert_time history device_id event_type with
        | none => .ok true
        | some t => .ok (decide (cooldown ≤ env.now - t)) := by
    unfold should_alert
    rw [hcd]
  refine ⟨⟨?_, ?_⟩, ?_, ?_, ?_⟩
  · intro h
    by_cases hm : env.in_maintenance = true
    · rw [heval, if_pos hm] at h
      exact absurd h (by simp)
    · have hmf : env.in_maintenance = false := by simpa using hm
      rw [heval, if_neg hm] at h
      refine ⟨hmf, ?_, ?_⟩
      · intro t hrec
        by_contra hlt
        push_neg at hlt
        rw [hrec] at h
        simp [decide_eq_true hlt] at h
      · intro t1 hla
        cases hrec : recent (device_id, event_type) with
        | none =>
          rw [hrec, hla] at h
          simpa using h
        | some t0 =>
          by_cases hlt : env.now - t0 < 30
          · rw [hrec] at h
            simp [decide_eq_true hlt] at h
          · rw [hrec, hla] at h
            have hd : decide (env.now - t0 < 30) = false := decide_eq_false hlt
            simpa [hd] using h
  · rintro ⟨hmf, h2, h3⟩
    rw [heval, if_neg (by simp [hmf])]
    cases hrec : recent (device_id, event_type) with
    | none =>
      cases hla : get_last_alert_time history device_id event_type with
      | none => simp
      | some t1 => simp [decide_eq_true (h3 t1 hla)]
    | some t0 =>
      have h30 := h2 t0 hrec
      have hd : decide (env.now - t0 < 30) = false := decide_eq_false (by omega)
      cases hla : get_last_alert_time history device_id event_type with
      | none => simp [hd]
      | some t1 => simp [hd, decide_eq_true (h3 t1 hla)]
  · intro hm
    rw [heval, if_pos hm]
  · intro t hrec hlt
    rw [heval]
    by_cases hm : env.in_maintenance = true
    · rw [if_pos hm]
    · rw [if_neg hm]
      simp [hrec, decide_eq_true hlt]
  · intro r hr
    have hpred : (r.device_id == device_id && r.event_type == event_type &&
        r.status == "sent") = false := by
      rcases hr with h | h | h <;> simp [h]
    unfold get_last_alert_time
    simp [List.filter, hpred]

/-- Witness for `should_alert_spec`: with empty settings (cooldown parses
to the default 300), no maintenance, an empty lock map and an empty alert
history, the pipeline passes. -/
theorem should_alert_spec_witness :
    should_alert ⟨[], false, 1000, false, false, false⟩ (fun _ => none) [] 1 "down" =
      .ok true := by
  have h := should_alert_spec ⟨[], false, 1000, false, false, false⟩
    (fun _ => none) [] 1 "down" 300 rfl
  refine h.1.mpr ⟨rfl, ?_, ?_⟩
  · intro t ht
    cases ht
  · intro t ht
    cases ht

theorem trigger_alert_maintenance (env : AlertEnv) (recent : LockMap)
    (history : List AlertRow) (device_id : Nat) (event_type : String)
    (hm : env.in_maintenance = true) :
    trigger_alert env recent history device_id event_type =
      .ok ⟨false, recent, history, []⟩ := by
  unfold trigger_alert should_alert
  rw [if_pos hm]

theorem dispatch_all_maintenance (env : AlertEnv) (device_id : Nat)
    (hm : env.in_maintenance = true) :
    ∀ (l : List String) (st : MonState),
      dispatch_all env st device_id l = .ok (st, []) := by
  intro l
  induction l with
  | nil => intro st; rfl
  | cons ev rest ih =>
    intro st
    unfold dispatch_all
    rw [trigger_alert_maintenance env st.recent_alerts st.history device_id ev hm]
    simp only []
    rw [ih]
    rfl

/-- Claim C5: maintenance window is a pure alert-side frame: when the device
is inside an active maintenance window and the probe comes back `down`,
`check_device` still increments the persisted failure counter and still
stores the resolved device status, but the dispatcher performs no channel
send, appends no alert-history row and leaves the in-memory lock map
untouched (`should_alert` returns before `_mark_alert_sent`). -/
theorem maintenance_window_frame (env : AlertEnv) (T : Nat) (st : MonState)
    (device_id : Nat) (probe : ProbeResult)
    (hm : env.in_maintenance = true) (hp : probe.status = .down) :
    check_device env T st device_id probe =
      .ok ⟨(resolveStatus .down st.failure_count st.device_status T).1,
           { st with
             failure_count := st.failure_count + 1,
             device_status := (resolveStatus .down st.failure_count st.device_status T).1 },
           alertTriggers st.device_status
             (resolveStatus .down st.failure_count st.device_status T).1
             st.failure_count T probe.ssl_days_left,
           []⟩ := by
  simp only [check_device, hp]
  rw [dispatch_all_maintenance env device_id hm]
  simp only [resolveStatus_down_eq]

/-- Witness for `maintenance_window_frame`: a concrete first failure of an
`up` device inside a maintenance window updates counter and status only. -/
theorem maintenance_window_frame_witness :
    check_device ⟨[], true, 0, false, false, false⟩ 3
        ⟨0, .up, fun _ => none, []⟩ 1 ⟨.down, none⟩ =
      .ok ⟨.up, ⟨1, .up, fun _ => none, []⟩, [], []⟩ := by
  have h := maintenance_window_frame ⟨[], true, 0, false, false, false⟩ 3
    ⟨0, .up, fun _ => none, []⟩ 1 ⟨.down, none⟩ rfl rfl
  simpa using h

theorem mark_alert_sent_self (recent : LockMap) (now : Int) (device_id : Nat)
    (event_type : String) :
    mark_alert_sent recent now device_id event_type (device_id, event_type) =
      some now := by
  unfold mark_alert_sent
  simp only [if_pos rfl]
  have h600 : now - 600 < now := by omega
  simp [h600]

/-- Claim C10: `Alerter.trigger_alert` writes the in-memory lock before the
per-event-kind enable flags and before any channel: once `should_alert`
passes, the lock map becomes `_mark_alert_sent` of the old map whatever
the flags or channels say (a disabled kind changes only history/sends to
nothing), the written map holds the key at `now` and prunes every entry
that is 10 minutes old or older, and any subsequent trigger for the same
key within 30 seconds is suppressed with no further state change. -/
theorem trigger_alert_lock_first (env : AlertEnv) (recent : LockMap)
    (history : List AlertRow) (device_id : Nat) (event_type : String)
    (hpass : should_alert env recent history device_id event_type = .ok true) :
    (trigger_alert env recent history device_id event_type =
      .ok ⟨true, mark_alert_sent recent env.now device_id event_type,
           (if event_type_enabled env.settings event_type then
              (dispatch_channels env history device_id event_type).1
            else history),
           (if event_type_enabled env.settings event_type then
              (dispatch_channels env history device_id event_type).2
            else [])⟩) ∧
    (∀ k, mark_alert_sent recent env.now device_id event_type k =
      if k = (device_id, event_type) then some env.now
      else
        match recent k with
        | some t => if env.now - 600 < t then some t else none
        | none => none) ∧
    (∀ (env2 : AlertEnv) (history2 : List AlertRow),
      env2.now - env.now < 30 →
      trigger_alert env2 (mark_alert_sent recent env.now device_id event_type)
          history2 device_id event_type =
        .ok ⟨false, mark_alert_sent recent env.now device_id event_type,
             history2, []⟩) := by
  refine ⟨?_, ?_, ?_⟩
  · unfold trigger_alert
    rw [hpass]
    simp only []
    by_cases he : event_type_enabled env.settings event_type <;> simp [he]
  · intro k
    unfold mark_alert_sent
    by_cases hk : k = (device_id, event_type)
    · subst hk
      simp only [if_pos rfl]
      have h600 : env.now - 600 < env.now := by omega
      simp [h600]
    · simp only [if_neg hk]
  · intro env2 history2 hlt
    have hsa : should_alert env2
        (mark_alert_sent recent env.now device_id event_type) history2
        device_id event_type = .ok false := by
      unfold should_alert
      by_cases hm2 : env2.in_maintenance = true
      · rw [if_pos hm2]
      · rw [if_neg hm2]
        rw [mark_alert_sent_self recent env.now device_id event_type]
        simp [decide_eq_true hlt]
    unfold trigger_alert
    rw [hsa]

/-- Witness for `trigger_alert_lock_first`: a concrete passing trigger
with all channels and flags at their defaults (no channel enabled) still
writes the 30-second lock for its key. -/
theorem trigger_alert_lock_first_witness :
    (mark_alert_sent (fun _ => none) 1000 7 "down") (7, "down") = some 1000 ∧
    trigger_alert ⟨[], false, 1000, false, false, false⟩ (fun _ => none) [] 7 "down" =
      .ok ⟨true, mark_alert_sent (fun _ => none) 1000 7 "down", [], []⟩ := by
  have h := trigger_alert_lock_first ⟨[], false, 1000, false, false, false⟩
    (fun _ => none) [] 7 "down" rfl
  exact ⟨(h.2.1 (7, "down")).trans (by rfl), h.1.trans (by rfl)⟩

/-- Claim C9: `Alerter.send_email` (`src/alerter.py` lines 44-108) with a
well-formed port setting: missing SMTP server/user/password or an empty
recipient list returns failure immediately with no connection opened;
otherwise the transport is implicit TLS exactly on port 465 and STARTTLS
on every other port, and an SMTP authentication failure is reported under
an error string that can never coincide with the one used for other SMTP
transport failures. -/
theorem send_email_spec (env : EmailEnv) (recipient : Option String) (p : Int)
    (hp : smtp_port_setting env.settings = some p) :
    (let incomplete :=
       pyStrip (getSettingD env.settings "smtp_server" "") = "" ∨
       pyStrip (getSettingD env.settings "smtp_user" "") = "" ∨
       getSettingD env.settings "smtp_password" "" = "" ∨
       splitRecipients
         (pyStrip (recipient.getD (getSettingD env.settings "email_recipient" ""))) = [];
     (incomplete →
        send_email env recipient = .ok ⟨false, some "Email settings incomplete", none⟩) ∧
     (¬incomplete →
        env.outcome = .ok →
        send_email env recipient =
          .ok ⟨true, none, some (if p = 465 then .ssl else .starttls)⟩) ∧
     (¬incomplete → ∀ m, env.outcome = .authError m →
        send_email env recipient =
          .ok ⟨false, some ("SMTP authentication failed: " ++ m),
               some (if p = 465 then .ssl else .starttls)⟩) ∧
     (¬incomplete → ∀ m, env.outcome = .smtpError m →
        send_email env recipient =
          .ok ⟨false, some ("SMTP error: " ++ m),
               some (if p = 465 then .ssl else .starttls)⟩) ∧
     (∀ a b : String,
        ("SMTP authentication failed: " ++ a) ≠ ("SMTP error: " ++ b))) := by
  refine ⟨?_, ?_, ?_, ?_, ?_⟩
  · intro hinc
    simp only [send_email]
    rw [hp]
    simp only []
    rw [if_pos hinc]
  · intro hinc hok
    simp only [send_email]
    rw [hp]
    simp only []
    rw [if_neg hinc, hok]
  · intro hinc m hauth
    simp only [send_email]
    rw [hp]
    simp only []
    rw [if_neg hinc, hauth]
  · intro hinc m hsmtp
    simp only [send_email]
    rw [hp]
    simp only []
    rw [if_neg hinc, hsmtp]
  · intro a b h
    have hd := congrArg String.data h
    rw [String.data_append, String.data_append] at hd
    have h5 := congrArg (fun l => l[5]?) hd
    simp only at h5
    rw [List.getElem?_append_left (by decide),
        List.getElem?_append_left (by decide)] at h5
    revert h5
    decide

/-- Witness for `send_email_spec`: empty settings fail fast with no
connection; a complete configuration on port 465 connects with implicit
TLS. -/
theorem send_email_spec_witness :
    send_email ⟨[], .ok⟩ none = .ok ⟨false, some "Email settings incomplete", none⟩ ∧
    send_email ⟨[("smtp_server", "smtp.example.com"), ("smtp_user", "u"),
                 ("smtp_password", "pw"), ("email_recipient", "a@example.com"),
                 ("smtp_port", "465")], .ok⟩ none =
      .ok ⟨true, none, some .ssl⟩ := by
  constructor
  · exact (send_email_spec ⟨[], .ok⟩ none 587 rfl).1 (Or.inl rfl)
  · have h := (send_email_spec ⟨[("smtp_server", "smtp.example.com"), ("smtp_user", "u"),
      ("smtp_password", "pw"), ("email_recipient", "a@example.com"),
      ("smtp_port", "465")], .ok⟩ none 465 (by decide)).2.1 (by decide) rfl
    simpa using h

theorem tg_is_ok_iff (o : TgOutcome) : tg_is_ok o = true ↔ o = .ok := by
  cases o <;> simp [tg_is_ok]

theorem tg_error_entry_none_iff (chat_id : String) (o : TgOutcome) :
    tg_error_entry chat_id o = none ↔ o = .ok := by
  cases o <;> simp [tg_error_entry]

@[simp] theorem tg_is_ok_ok : tg_is_ok TgOutcome.ok = true := rfl

@[simp] theorem tg_is_ok_unauthorized : tg_is_ok TgOutcome.unauthorized = false := rfl

@[simp] theorem tg_is_ok_apiError (d : String) :
    tg_is_ok (TgOutcome.apiError d) = false := rfl

@[simp] theorem tg_is_ok_timeout : tg_is_ok TgOutcome.timeout = false := rfl

@[simp] theorem tg_is_ok_exn (m : String) : tg_is_ok (TgOutcome.exn m) = false := rfl

@[simp] theorem tg_error_entry_ok (id : String) :
    tg_error_entry id TgOutcome.ok = none := rfl

@[simp] theorem tg_error_entry_unauthorized (id : String) :
    tg_error_entry id TgOutcome.unauthorized = some ("Invalid Token for " ++ id) := rfl

@[simp] theorem tg_error_entry_apiError (id d : String) :
    tg_error_entry id (TgOutcome.apiError d) =
      some ("Error for " ++ id ++ ": " ++ d) := rfl

@[simp] theorem tg_error_entry_timeout (id : String) :
    tg_error_entry id TgOutcome.timeout = some ("Timeout for " ++ id) := rfl

@[simp] theorem tg_error_entry_exn (id m : String) :
    tg_error_entry id (TgOutcome.exn m) =
      some ("Error for " ++ id ++ ": " ++ m) := rfl

theorem tg_accounting (outcome : String → TgOutcome) :
    ∀ l : List String,
      (l.filter (fun id => tg_is_ok (outcome id))).length +
        (l.filterMap (fun id => tg_error_entry id (outcome id))).length =
      l.length := by
  intro l
  induction l with
  | nil => rfl
  | cons a rest ih =>
    cases ho : outcome a <;>
      simp [List.filter_cons, List.filterMap_cons, ho] <;>
      omega

theorem tg_filter_pos_iff (env : TelegramEnv) (l : List String) :
    0 < (l.filter (fun id => tg_is_ok (env.outcome id))).length ↔
      ∃ id ∈ l, env.outcome id = .ok := by
  rw [List.length_pos_iff_exists_mem]
  constructor
  · rintro ⟨a, ha⟩
    rw [List.mem_filter] at ha
    exact ⟨a, ha.1, (tg_is_ok_iff _).mp ha.2⟩
  · rintro ⟨a, ha, hok⟩
    exact ⟨a, List.mem_filter.mpr ⟨ha, (tg_is_ok_iff _).mpr hok⟩⟩

/-- Claim C8: the reachable per-recipient logic of `Alerter.send_telegram`
(`src/alerter.py` lines 143-197): with credentials present and at least
one chat id, every recipient is attempted (successes and error entries
account for the whole list, so one failure never aborts the rest), the
batch succeeds iff at least one recipient succeeded, a mixed batch
carries a non-empty warning built from the per-recipient error entries,
and every failing recipient is named inside one of those entries.  The
module itself cannot run: lines 199-202 are `except` clauses with no
`try`, a Python `SyntaxError`. -/
theorem send_telegram_spec (env : TelegramEnv)
    (hcreds : ¬(pyStrip (getSettingD env.settings "telegram_bot_token" "") = "" ∨
                pyStrip (getSettingD env.settings "telegram_chat_id" "") = ""))
    (hids : ¬(splitRecipients
        (pyStrip (getSettingD env.settings "telegram_chat_id" "")) = [])) :
    (let chat_ids :=
       splitRecipients (pyStrip (getSettingD env.settings "telegram_chat_id" ""));
     let success_count := (chat_ids.filter (fun id => tg_is_ok (env.outcome id))).length;
     let errors := chat_ids.filterMap (fun id => tg_error_entry id (env.outcome id));
     ((send_telegram env).success = true ↔ ∃ id ∈ chat_ids, env.outcome id = .ok) ∧
     (success_count + errors.length = chat_ids.length) ∧
     ((∃ id ∈ chat_ids, env.outcome id = .ok) → errors ≠ [] →
       (send_telegram env).warning =
         some ("Sent to " ++ toString success_count ++ "/" ++
               toString chat_ids.length ++ ", Errors: " ++
               String.intercalate "; " errors) ∧
       ("Sent to " ++ toString success_count ++ "/" ++
        toString chat_ids.length ++ ", Errors: " ++
        String.intercalate "; " errors) ≠ "") ∧
     (∀ id ∈ chat_ids, env.outcome id ≠ .ok →
       ∃ e ∈ errors, ∃ pre post, e = pre ++ id ++ post)) := by
  have heval : send_telegram env =
      (let chat_ids :=
         splitRecipients (pyStrip (getSettingD env.settings "telegram_chat_id" ""));
       let success_count := (chat_ids.filter (fun id => tg_is_ok (env.outcome id))).length;
       let errors := chat_ids.filterMap (fun id => tg_error_entry id (env.outcome id));
       if 0 < success_count then
         if 0 < errors.length then
           ⟨true, none,
            some ("Sent to " ++ toString success_count ++ "/" ++
                  toString chat_ids.length ++ ", Errors: " ++
                  String.intercalate "; " errors)⟩
         else ⟨true, none, none⟩
       else
         ⟨false, some ("All attempts failed: " ++ String.intercalate "; " errors),
          none⟩) := by
    simp only [send_telegram]
    rw [if_neg hcreds, if_neg hids]
  refine ⟨?_, ?_, ?_, ?_⟩
  · rw [heval]
    simp only []
    by_cases hs : 0 < (List.filter (fun id => tg_is_ok (env.outcome id))
        (splitRecipients (pyStrip (getSettingD env.settings "telegram_chat_id" "")))).length
    · rw [if_pos hs]
      have hex := (tg_filter_pos_iff env _).mp hs
      by_cases he : 0 < (List.filterMap (fun id => tg_error_entry id (env.outcome id))
          (splitRecipients (pyStrip (getSettingD env.settings "telegram_chat_id" "")))).length
      · rw [if_pos he]
        simpa using hex
      · rw [if_neg he]
        simpa using hex
    · rw [if_neg hs]
      have hnex := fun h => hs ((tg_filter_pos_iff env _).mpr h)
      simpa using hnex
  · exact tg_accounting env.outcome _
  · intro hok hne
    rw [heval]
    simp only []
    rw [if_pos ((tg_filter_pos_iff env _).mpr hok), if_pos (List.length_pos.mpr hne)]
    refine ⟨rfl, ?_⟩
    intro hcontra
    have hd := congrArg String.data hcontra
    simp [String.data_append] at hd
  · intro id hmem hne
    cases ho : env.outcome id with
    | ok => exact absurd ho hne
    | unauthorized =>
      exact ⟨"Invalid Token for " ++ id,
        List.mem_filterMap.mpr ⟨id, hmem, by rw [ho]; simp⟩,
        "Invalid Token for ", "", by simp⟩
    | apiError desc =>
      exact ⟨"Error for " ++ id ++ ": " ++ desc,
        List.mem_filterMap.mpr ⟨id, hmem, by rw [ho]; simp⟩,
        "Error for ", ": " ++ desc, by simp [String.append_assoc]⟩
    | timeout =>
      exact ⟨"Timeout for " ++ id,
        List.mem_filterMap.mpr ⟨id, hmem, by rw [ho]; simp⟩,
        "Timeout for ", "", by simp⟩
    | exn m =>
      exact ⟨"Error for " ++ id ++ ": " ++ m,
        List.mem_filterMap.mpr ⟨id, hmem, by rw [ho]; simp⟩,
        "Error for ", ": " ++ m, by simp [String.append_assoc]⟩

/-- Witness for `send_telegram_spec`: three recipients of which one times
out yield a successful batch with a warning naming the failing one. -/
theorem send_telegram_spec_witness :
    (send_telegram ⟨[("telegram_bot_token", "t"), ("telegram_chat_id", "a,b,c")],
        fun id => if id = "b" then .timeout else .ok⟩).success = true ∧
    (send_telegram ⟨[("telegram_bot_token", "t"), ("telegram_chat_id", "a,b,c")],
        fun id => if id = "b" then .timeout else .ok⟩).warning =
      some "Sent to 2/3, Errors: Timeout for b" := by
  have h := send_telegram_spec
    ⟨[("telegram_bot_token", "t"), ("telegram_chat_id", "a,b,c")],
     fun id => if id = "b" then .timeout else .ok⟩
    (by decide) (by decide)
  constructor
  · exact h.1.mpr ⟨"a", by decide, by decide⟩
  · have hw := (h.2.2.1 ⟨"a", by decide, by decide⟩ (by decide)).1
    exact hw.trans (by decide)
